import Mathlib

/-!
Shallow embedding of the homebridge-lomi plugin core
(src/platform.ts, src/platformAccessory.ts, src/settings.ts).

The plugin authenticates against AWS Cognito, fetches the account's
device list from a fixed endpoint, selects one device by nickname,
and then polls the device list every minute, mapping the selected
device's `cycleTimeRemaining` field (seconds) onto a temperature
characteristic (whole minutes).

Network I/O is modelled by passing the outcome of the HTTP exchange
as an explicit argument; the remaining logic of each TypeScript
function is translated directly.
-/

namespace Lomi

/-- Record `UserDevice` (src/platform.ts lines 35-49).
`_id` is rendered `mongoId` (a leading underscore is not a usable
Lean field name); `cycleTimeRemaining?: number` holds nonnegative
whole seconds, rendered `Option Nat`. -/
structure UserDevice where
  mongoId : String
  userId : String
  deviceId : String
  nickname : String
  deviceType : String
  lastFilterResetDate : Option String
  lastFilterCounter : Int
  filterCounterModifiedAt : String
  createdAt : String
  lastModified : String
  removed : Bool
  version : Nat
  cycleTimeRemaining : Option Nat
deriving Repr, DecidableEq

/-- Record `Device` (src/platform.ts lines 51-62); `enrollment: unknown`
is rendered `Unit`. -/
structure Device where
  mongoId : String
  createdAt : String
  deviceType : String
  deviceVersion : String
  lastModified : String
  manufactureDate : String
  refurbished : Bool
  thingName : String
  version : Nat
  enrollment : Unit
deriving Repr, DecidableEq

/-- Record `DeviceEntry` (src/platform.ts lines 64-67). -/
structure DeviceEntry where
  userDevice : UserDevice
  device : Device
deriving Repr, DecidableEq

/-- Envelope `UserDevicesResponse` (src/platform.ts lines 69-71). -/
structure UserDevicesResponse where
  result : List DeviceEntry
deriving Repr, DecidableEq

/-- The `AuthenticationResult` payload of a Cognito response
(src/platform.ts lines 21-27). -/
structure CognitoAuthResult where
  AccessToken : String
  IdToken : String
  RefreshToken : String
  ExpiresIn : Nat
  TokenType : String
deriving Repr, DecidableEq

/-- Record `CognitoAuthResponse` (src/platform.ts lines 20-33).  `__type` is
rendered `errorType`.  The challenge/code-delivery fields are carried
as opaque strings; `login` never reads them. -/
structure CognitoAuthResponse where
  AuthenticationResult : Option CognitoAuthResult
  ChallengeName : Option String
  Message : Option String
  errorType : Option String
deriving Repr, DecidableEq

/-- The HTTP exchange of `login`: `response.ok`, `response.status`,
`response.statusText` and the parsed JSON body. -/
structure LoginHttpResponse where
  ok : Bool
  status : Nat
  statusText : String
  data : CognitoAuthResponse
deriving Repr, DecidableEq

/-- JavaScript truthiness of an optional string: `undefined` and the
empty string are falsy. -/
def jsTruthyStr : Option String → Bool
  | some s => s != ""
  | none => false

/-- JavaScript `a || b` on an optional string `a` and a string `b`. -/
def jsOrStr (a : Option String) (b : String) : String :=
  match a with
  | some s => if s != "" then s else b
  | none => b

/-- The error message thrown by `login` on failure
(src/platform.ts lines 173-175):
`Authentication failed: (data.__type or response.statusText) ` followed
by `- data.Message` when `data.Message` is truthy. -/
def authFailureMessage (resp : LoginHttpResponse) : String :=
  "Authentication failed: " ++ jsOrStr resp.data.errorType resp.statusText ++ " " ++
    (if jsTruthyStr resp.data.Message then "- " ++ (resp.data.Message.getD "") else "")

/-- Function `login` (src/platform.ts lines 146-184): given the outcome of the
Cognito POST, throw (`Except.error`) when the response is non-success
or lacks an `AuthenticationResult`, otherwise return the `IdToken`. -/
def login (resp : LoginHttpResponse) : Except String String :=
  if !resp.ok || resp.data.AuthenticationResult.isNone then
    Except.error (authFailureMessage resp)
  else
    match resp.data.AuthenticationResult with
    | some ar => Except.ok ar.IdToken
    | none => Except.error (authFailureMessage resp)

/-- Errors `fetchDevices` can throw (src/platform.ts lines 186-211):
the fail-fast guard when no token is held, the non-2xx branch, and a
transport/parse exception rethrown by the catch block. -/
inductive FetchError where
  | noToken : FetchError
  | httpError (status : Nat) (body : String) : FetchError
  | exception (msg : String) : FetchError
deriving Repr, DecidableEq

/-- The outcome of the GET to the devices endpoint: a transport
failure, or an HTTP response whose body may or may not parse as a
`UserDevicesResponse`. -/
inductive FetchOutcome where
  | transportFailure (msg : String) : FetchOutcome
  | response (ok : Bool) (status : Nat) (bodyText : String)
      (parsed : Option UserDevicesResponse) : FetchOutcome
deriving Repr, DecidableEq

/-- The GET issued by `fetchDevices` once the token guard is passed
(src/platform.ts lines 190-210): a non-ok status throws, a body that
fails to parse throws, otherwise `data.result` is returned verbatim. -/
def fetchDevicesRequest (net : FetchOutcome) : Except FetchError (List DeviceEntry) :=
  match net with
  | FetchOutcome.transportFailure msg => Except.error (FetchError.exception msg)
  | FetchOutcome.response ok status bodyText parsed =>
    if !ok then
      Except.error (FetchError.httpError status bodyText)
    else
      match parsed with
      | none => Except.error (FetchError.exception "invalid json response body")
      | some data => Except.ok data.result

/-- Function `fetchDevices` (src/platform.ts lines 186-211).  Returns the result
together with the number of network calls made.  The guard
`if (!this.token)` tests JavaScript falsiness of the
`string | null` token, so both a null token and an empty-string token
fail fast with zero network calls; otherwise exactly one GET is
issued. -/
def fetchDevices (token : Option String) (net : FetchOutcome) :
    Except FetchError (List DeviceEntry) × Nat :=
  if !jsTruthyStr token then
    (Except.error FetchError.noToken, 0)
  else
    (fetchDevicesRequest net, 1)

/-- Function `refreshDeviceStatus` (src/platform.ts lines 213-226): the whole
body is wrapped in try/catch, so a failed fetch yields `undefined`
(`none`); a successful fetch is searched by `deviceId` with
`Array.prototype.find`. -/
def refreshDeviceStatus (deviceId : String)
    (fetchResult : Except FetchError (List DeviceEntry)) : Option DeviceEntry :=
  match fetchResult with
  | Except.error _ => none
  | Except.ok devices => devices.find? (fun entry => entry.userDevice.deviceId == deviceId)

/-- Device selection in `init` (src/platform.ts lines 122-124):
`devices.find((entry) => entry.userDevice.nickname === this.deviceNickname)`. -/
def selectByNickname (devices : List DeviceEntry) (deviceNickname : String) :
    Option DeviceEntry :=
  devices.find? (fun entry => entry.userDevice.nickname == deviceNickname)

/-- The host-visible state of the accessory: the cached `deviceEntry`
of `LomiPlatformAccessory`, the accessory's `displayName`, and the last
value applied to the `CurrentTemperature` characteristic. -/
structure AccessoryState where
  deviceEntry : DeviceEntry
  displayName : String
  sensorValue : Nat
deriving Repr, DecidableEq

/-- Computation `Math.round(seconds / 60)` for a nonnegative whole number of
seconds (src/platformAccessory.ts line 69): JavaScript `Math.round`
is floor(x + 1/2), which on naturals is `(s + 30) / 60` in integer
division. -/
def minutesRemaining (seconds : Nat) : Nat :=
  (seconds + 30) / 60

/-- The accessory constructor (src/platformAccessory.ts lines 10-45,
and src/platform.ts lines 131-137 which create the accessory with the
selected device's nickname as display name): caches the entry and sets
the `CurrentTemperature` characteristic to 0, before any refresh
result arrives. -/
def constructorState (deviceEntry : DeviceEntry) : AccessoryState :=
  { deviceEntry := deviceEntry
    displayName := deviceEntry.userDevice.nickname
    sensorValue := 0 }

/-- Function `updateStatus` (src/platformAccessory.ts lines 47-79) given the
entry returned by `refreshDeviceStatus`: on `undefined` it returns
early leaving every field unchanged; otherwise it replaces the cached
entry wholesale, updates the display name to the entry's nickname (the
source skips the assignment when unchanged, which has the same net
effect), and sets the characteristic to `Math.round(remaining / 60)`
when `cycleTimeRemaining` is defined and to 0 otherwise. -/
def updateStatus (st : AccessoryState) (updatedEntry : Option DeviceEntry) :
    AccessoryState :=
  match updatedEntry with
  | none => st
  | some entry =>
    { deviceEntry := entry
      displayName := entry.userDevice.nickname
      sensorValue :=
        match entry.userDevice.cycleTimeRemaining with
        | some seconds => minutesRemaining seconds
        | none => 0 }

/-- One refresh tick of the accessory: `updateStatus` first calls
`refreshDeviceStatus` with the cached entry's `deviceId`
(src/platformAccessory.ts lines 51-53) and then applies the result. -/
def updateStatusTick (st : AccessoryState)
    (fetchResult : Except FetchError (List DeviceEntry)) : AccessoryState :=
  updateStatus st (refreshDeviceStatus st.deviceEntry.userDevice.deviceId fetchResult)

/-- Function `init` (src/platform.ts lines 112-144): log in, fetch the device
list, select by configured nickname, and build the accessory.  The
whole body is wrapped in try/catch, and a missing nickname returns
early, so the function is total: `none` means no accessory was
registered and the process keeps running. -/
def init (loginResp : LoginHttpResponse) (net : FetchOutcome)
    (deviceNickname : String) : Option AccessoryState :=
  match login loginResp with
  | Except.error _ => none
  | Except.ok token =>
    match (fetchDevices (some token) net).1 with
    | Except.error _ => none
    | Except.ok devices =>
      match selectByNickname devices deviceNickname with
      | none => none
      | some selectedDevice => some (constructorState selectedDevice)


/-! ## Sample values for concrete instantiations -/

/-- A fixed immutable-metadata record used by the sample entries. -/
def sampleDevice : Device :=
  { mongoId := "dev-meta"
    createdAt := "2024-01-01"
    deviceType := "lomi"
    deviceVersion := "1"
    lastModified := "2024-01-01"
    manufactureDate := "2023-12-01"
    refurbished := false
    thingName := "thing"
    version := 1
    enrollment := () }

/-- Builds a device entry with the given stable identifier, nickname
and optional cycle time remaining. -/
def mkEntry (deviceId nickname : String) (cycleTimeRemaining : Option Nat) : DeviceEntry :=
  { userDevice :=
      { mongoId := "ud-1"
        userId := "user-1"
        deviceId := deviceId
        nickname := nickname
        deviceType := "lomi"
        lastFilterResetDate := none
        lastFilterCounter := 0
        filterCounterModifiedAt := "2024-01-01"
        createdAt := "2024-01-01"
        lastModified := "2024-01-02"
        removed := false
        version := 3
        cycleTimeRemaining := cycleTimeRemaining }
    device := sampleDevice }

/-- A sample accessory state with tracked identifier d1 and display
name A. -/
def sampleState : AccessoryState :=
  constructorState (mkEntry "d1" "A" none)

/-- A failed Cognito exchange: HTTP 400 with an error type and
message in the body and no authentication result. -/
def sampleLoginFail : LoginHttpResponse :=
  { ok := false
    status := 400
    statusText := "Bad Request"
    data :=
      { AuthenticationResult := none
        ChallengeName := none
        Message := some "Incorrect username or password."
        errorType := some "NotAuthorizedException" } }

/-- A successful Cognito exchange returning an ID token. -/
def sampleLoginOk : LoginHttpResponse :=
  { ok := true
    status := 200
    statusText := "OK"
    data :=
      { AuthenticationResult := some
          { AccessToken := "acc-token"
            IdToken := "id-token"
            RefreshToken := "refresh-token"
            ExpiresIn := 3600
            TokenType := "Bearer" }
        ChallengeName := none
        Message := none
        errorType := none } }

/-! ## Helper lemmas -/

/-- Find returns the first match: scanning a list that starts with
non-matching elements and then a match yields that match. -/
theorem find?_first_match {α : Type} (p : α → Bool) (l₁ l₂ : List α) (a : α)
    (ha : p a = true) (h₁ : ∀ x ∈ l₁, p x = false) :
    (l₁ ++ a :: l₂).find? p = some a := by
  induction l₁ with
  | nil => simp [List.find?_cons, ha]
  | cons y ys ih =>
    have hy : p y = false := h₁ y (List.mem_cons_self y ys)
    rw [List.cons_append, List.find?_cons, hy]
    exact ih (fun x hx => h₁ x (List.mem_cons_of_mem y hx))


/-! ## Claim theorems -/

/-- C1: for every device entry whose cycle-time-remaining field is
defined with value s seconds, `updateStatus` forwards
round-to-nearest(s/60) whole minutes to the sensor value slot (ties
round up, as JavaScript Math.round does); in particular the values
forwarded for s = 0, 59, 60, 89, 90, 91, 125 are 0, 1, 1, 1, 2, 2, 2. -/
theorem update_forwards_rounded_minutes :
    (∀ (st : AccessoryState) (entry : DeviceEntry) (s : Nat),
       entry.userDevice.cycleTimeRemaining = some s →
       (updateStatus st (some entry)).sensorValue = minutesRemaining s) ∧
    (∀ (s m : Nat),
       ((60 * (minutesRemaining s : Int)) - s).natAbs ≤ ((60 * (m : Int)) - s).natAbs) ∧
    minutesRemaining 0 = 0 ∧ minutesRemaining 59 = 1 ∧ minutesRemaining 60 = 1 ∧
    minutesRemaining 89 = 1 ∧ minutesRemaining 90 = 2 ∧ minutesRemaining 91 = 2 ∧
    minutesRemaining 125 = 2 := by
  refine ⟨?_, ?_, by decide, by decide, by decide, by decide, by decide, by decide, by decide⟩
  · intro st entry s h
    simp [updateStatus, h]
  · intro s m
    simp only [minutesRemaining]
    omega

/-- Witness for C1 at s = 125: the forwarded value is
`minutesRemaining 125`, and that value is 2. -/
theorem update_forwards_rounded_minutes_witness :
    (updateStatus sampleState (some (mkEntry "d1" "Kitchen" (some 125)))).sensorValue =
      minutesRemaining 125 ∧ minutesRemaining 125 = 2 :=
  ⟨update_forwards_rounded_minutes.1 sampleState (mkEntry "d1" "Kitchen" (some 125)) 125 rfl,
   update_forwards_rounded_minutes.2.2.2.2.2.2.2.2⟩

/-- C2: for every device entry whose cycle-time-remaining field is
absent, `updateStatus` forwards exactly 0 to the sensor value slot. -/
theorem update_missing_field_forwards_zero :
    ∀ (st : AccessoryState) (entry : DeviceEntry),
      entry.userDevice.cycleTimeRemaining = none →
      (updateStatus st (some entry)).sensorValue = 0 := by
  intro st entry h
  simp [updateStatus, h]

/-- Witness for C2: an entry without the field yields sensor value 0. -/
theorem update_missing_field_forwards_zero_witness :
    (updateStatus sampleState (some (mkEntry "d1" "Kitchen" none))).sensorValue = 0 :=
  update_missing_field_forwards_zero sampleState (mkEntry "d1" "Kitchen" none) rfl

/-- C3: when the fetched device list contains no entry with the
tracked identifier, the refresh tick leaves the cached device entry,
the display name and the last-applied sensor value unchanged. -/
theorem tick_not_found_preserves_state :
    ∀ (st : AccessoryState) (devices : List DeviceEntry),
      (∀ entry ∈ devices, entry.userDevice.deviceId ≠ st.deviceEntry.userDevice.deviceId) →
      (updateStatusTick st (Except.ok devices)).deviceEntry = st.deviceEntry ∧
      (updateStatusTick st (Except.ok devices)).displayName = st.displayName ∧
      (updateStatusTick st (Except.ok devices)).sensorValue = st.sensorValue := by
  intro st devices h
  have hfind : devices.find?
      (fun entry => entry.userDevice.deviceId == st.deviceEntry.userDevice.deviceId) = none := by
    rw [List.find?_eq_none]
    intro x hx
    simpa using h x hx
  simp [updateStatusTick, refreshDeviceStatus, updateStatus, hfind]

/-- Witness for C3: a tick whose list holds only identifier d2 leaves
the state tracking d1 untouched. -/
theorem tick_not_found_preserves_state_witness :
    (updateStatusTick sampleState (Except.ok [mkEntry "d2" "B" (some 30)])).deviceEntry =
      sampleState.deviceEntry ∧
    (updateStatusTick sampleState (Except.ok [mkEntry "d2" "B" (some 30)])).displayName =
      sampleState.displayName ∧
    (updateStatusTick sampleState (Except.ok [mkEntry "d2" "B" (some 30)])).sensorValue =
      sampleState.sensorValue :=
  tick_not_found_preserves_state sampleState [mkEntry "d2" "B" (some 30)] (by decide)

/-- C4: `refreshDeviceStatus` is total over every fetch outcome (it
returns `Option` rather than raising); any fetch error yields `none`
and the subsequent update leaves the cached state unchanged, and any
returned entry comes from the fetched list. -/
theorem refresh_never_propagates_errors :
    ∀ (deviceId : String) (st : AccessoryState),
      (∀ err : FetchError,
         refreshDeviceStatus deviceId (Except.error err) = none ∧
         updateStatus st (refreshDeviceStatus deviceId (Except.error err)) = st) ∧
      (∀ (devices : List DeviceEntry) (entry : DeviceEntry),
         refreshDeviceStatus deviceId (Except.ok devices) = some entry → entry ∈ devices) := by
  intro deviceId st
  constructor
  · intro err
    exact ⟨rfl, rfl⟩
  · intro devices entry h
    exact List.mem_of_find?_eq_some h

/-- Witness for C4: a transport failure produces `none` and an
unchanged state, and a successful lookup returns a list member. -/
theorem refresh_never_propagates_errors_witness :
    (refreshDeviceStatus "d1" (Except.error (FetchError.exception "connect ETIMEDOUT")) = none ∧
     updateStatus sampleState
       (refreshDeviceStatus "d1" (Except.error (FetchError.exception "connect ETIMEDOUT"))) =
       sampleState) ∧
    mkEntry "d1" "A" none ∈ [mkEntry "d1" "A" none] :=
  ⟨(refresh_never_propagates_errors "d1" sampleState).1 (FetchError.exception "connect ETIMEDOUT"),
   (refresh_never_propagates_errors "d1" sampleState).2 [mkEntry "d1" "A" none]
     (mkEntry "d1" "A" none) (by decide)⟩

/-- C5: refresh matches by stable device identifier, not nickname:
with the tracked identifier found in the fetched list (after any
non-matching entries), the tick replaces the cached entry wholesale
with the fetched one and sets the display name to its nickname,
whatever that nickname now is. -/
theorem refresh_matches_by_id_updates_nickname :
    ∀ (st : AccessoryState) (l₁ l₂ : List DeviceEntry) (entry : DeviceEntry),
      entry.userDevice.deviceId = st.deviceEntry.userDevice.deviceId →
      (∀ x ∈ l₁, x.userDevice.deviceId ≠ st.deviceEntry.userDevice.deviceId) →
      (updateStatusTick st (Except.ok (l₁ ++ entry :: l₂))).deviceEntry = entry ∧
      (updateStatusTick st (Except.ok (l₁ ++ entry :: l₂))).displayName =
        entry.userDevice.nickname := by
  intro st l₁ l₂ entry he h₁
  have hfind : (l₁ ++ entry :: l₂).find?
      (fun x => x.userDevice.deviceId == st.deviceEntry.userDevice.deviceId) = some entry := by
    apply find?_first_match
    · simpa using he
    · intro x hx
      simpa using h₁ x hx
  simp [updateStatusTick, refreshDeviceStatus, updateStatus, hfind]

/-- Witness for C5: cached entry has id d1, nickname A; the fetch
returns id d1 with nickname B; the tick adopts the new entry and the
display name becomes B. -/
theorem refresh_matches_by_id_updates_nickname_witness :
    (updateStatusTick sampleState (Except.ok [mkEntry "d1" "B" (some 60)])).deviceEntry =
      mkEntry "d1" "B" (some 60) ∧
    (updateStatusTick sampleState (Except.ok [mkEntry "d1" "B" (some 60)])).displayName =
      (mkEntry "d1" "B" (some 60)).userDevice.nickname :=
  refresh_matches_by_id_updates_nickname sampleState [] [] (mkEntry "d1" "B" (some 60))
    rfl (by simp)


/-- Concatenation of strings is associative (stated over the
underlying character lists). -/
theorem string_append_assoc (a b c : String) : (a ++ b) ++ c = a ++ (b ++ c) := by
  apply String.ext
  simp [String.data_append, List.append_assoc]

/-- Regrouping of the failure-message pieces: a space followed by a
dash-space prefix merges into a single space-dash-space separator. -/
theorem append_space_dash (x msg : String) :
    (x ++ " ") ++ ("- " ++ msg) = (x ++ " - ") ++ msg := by
  have h : (" " : String) ++ "- " = " - " := rfl
  rw [string_append_assoc, ← string_append_assoc " " "- " msg, h, ← string_append_assoc]

/-- C6: a login response lacking an authentication result or carrying
a non-success status makes `login` fail with the authentication error;
when the provider supplies an error type and message the error text
carries both; and `init` then registers no accessory (it returns
`none` instead of raising). -/
theorem login_failure_blocks_accessory :
    ∀ (resp : LoginHttpResponse),
      resp.data.AuthenticationResult = none ∨ resp.ok = false →
      login resp = Except.error (authFailureMessage resp) ∧
      (∀ (t msg : String), resp.data.errorType = some t → t ≠ "" →
         resp.data.Message = some msg → msg ≠ "" →
         login resp = Except.error ("Authentication failed: " ++ t ++ " - " ++ msg)) ∧
      (∀ (net : FetchOutcome) (nick : String), init resp net nick = none) := by
  intro resp h
  have hcond : (!resp.ok || resp.data.AuthenticationResult.isNone) = true := by
    rcases h with h | h
    · simp [h]
    · simp [h]
  have hlogin : login resp = Except.error (authFailureMessage resp) := by
    simp [login, hcond]
  refine ⟨hlogin, ?_, ?_⟩
  · intro t msg ht htne hm hmne
    rw [hlogin]
    have h1 : jsOrStr resp.data.errorType resp.statusText = t := by
      simp [jsOrStr, ht, htne]
    have h2 : jsTruthyStr resp.data.Message = true := by
      simp [jsTruthyStr, hm, hmne]
    have hmsg : authFailureMessage resp =
        "Authentication failed: " ++ t ++ " - " ++ msg := by
      rw [authFailureMessage, h1, h2, hm]
      show ("Authentication failed: " ++ t ++ " ") ++ ("- " ++ Option.getD (some msg) "") =
        ("Authentication failed: " ++ t ++ " - ") ++ msg
      rw [Option.getD_some]
      exact append_space_dash ("Authentication failed: " ++ t) msg
    rw [hmsg]
  · intro net nick
    simp [init, hlogin]

/-- Witness for C6: a 400 response with `NotAuthorizedException` and a
message yields exactly the expected error text, and `init` creates no
accessory. -/
theorem login_failure_blocks_accessory_witness :
    login sampleLoginFail = Except.error (authFailureMessage sampleLoginFail) ∧
    login sampleLoginFail = Except.error
      ("Authentication failed: " ++ "NotAuthorizedException" ++ " - " ++
        "Incorrect username or password.") ∧
    init sampleLoginFail
      (FetchOutcome.response true 200 "" (some { result := [mkEntry "d1" "Kitchen" none] }))
      "Kitchen" = none :=
  ⟨(login_failure_blocks_accessory sampleLoginFail (Or.inl rfl)).1,
   (login_failure_blocks_accessory sampleLoginFail (Or.inl rfl)).2.1
     "NotAuthorizedException" "Incorrect username or password." rfl (by decide) rfl (by decide),
   (login_failure_blocks_accessory sampleLoginFail (Or.inl rfl)).2.2
     (FetchOutcome.response true 200 "" (some { result := [mkEntry "d1" "Kitchen" none] }))
     "Kitchen"⟩

/-- C7: startup selection returns the first entry in fetch order whose
nickname exactly equals the configured nickname (so with duplicate
nicknames the first wins); when nothing matches the selection is
`none` and `init` aborts accessory creation by returning `none`
without raising. -/
theorem selection_first_exact_match :
    (∀ (l₁ l₂ : List DeviceEntry) (entry : DeviceEntry) (nick : String),
       entry.userDevice.nickname = nick →
       (∀ x ∈ l₁, x.userDevice.nickname ≠ nick) →
       selectByNickname (l₁ ++ entry :: l₂) nick = some entry) ∧
    (∀ (devices : List DeviceEntry) (nick : String),
       (∀ x ∈ devices, x.userDevice.nickname ≠ nick) →
       selectByNickname devices nick = none) ∧
    (∀ (resp : LoginHttpResponse) (net : FetchOutcome) (nick tok : String)
       (devices : List DeviceEntry),
       login resp = Except.ok tok →
       (fetchDevices (some tok) net).1 = Except.ok devices →
       selectByNickname devices nick = none →
       init resp net nick = none) := by
  refine ⟨?_, ?_, ?_⟩
  · intro l₁ l₂ entry nick he h₁
    unfold selectByNickname
    apply find?_first_match
    · simpa using he
    · intro x hx
      simpa using h₁ x hx
  · intro devices nick h
    unfold selectByNickname
    rw [List.find?_eq_none]
    intro x hx
    simpa using h x hx
  · intro resp net nick tok devices h1 h2 h3
    simp [init, h1, h2, h3]

/-- Witness for C7: with two entries nicknamed Kitchen the first is
selected; with no match selection is `none` and `init` registers
nothing. -/
theorem selection_first_exact_match_witness :
    selectByNickname [mkEntry "d1" "Kitchen" none, mkEntry "d2" "Kitchen" none] "Kitchen" =
      some (mkEntry "d1" "Kitchen" none) ∧
    selectByNickname [mkEntry "d1" "Kitchen" none] "Bedroom" = none ∧
    init sampleLoginOk
      (FetchOutcome.response true 200 "" (some { result := [mkEntry "d1" "Kitchen" none] }))
      "Bedroom" = none :=
  ⟨selection_first_exact_match.1 [] [mkEntry "d2" "Kitchen" none]
     (mkEntry "d1" "Kitchen" none) "Kitchen" rfl (by simp),
   selection_first_exact_match.2.1 [mkEntry "d1" "Kitchen" none] "Bedroom" (by decide),
   selection_first_exact_match.2.2 sampleLoginOk
     (FetchOutcome.response true 200 "" (some { result := [mkEntry "d1" "Kitchen" none] }))
     "Bedroom" "id-token" [mkEntry "d1" "Kitchen" none] rfl rfl (by decide)⟩

/-- C8 counterexample: the guard `if (!this.token)` tests JavaScript
falsiness, so with the empty string held as token the code raises the
no-token error even though a token is present at entry — refuting the
claimed equivalence between that error and a null token. -/
theorem fetch_fails_fast_without_token_counterexample :
    (fetchDevices (some "")
      (FetchOutcome.response true 200 "" (some { result := [] }))).1 =
      Except.error FetchError.noToken ∧
    (some "" : Option String) ≠ none ∧
    (fetchDevices (some "")
      (FetchOutcome.response true 200 "" (some { result := [] }))).2 = 0 :=
  ⟨rfl, by simp, rfl⟩

/-- C8 (amended): `fetchDevices` fails immediately with the no-token
error and makes zero network calls exactly when the held token is
JavaScript-falsy, that is, absent (null) or present but equal to the
empty string. -/
theorem fetch_fails_fast_without_token :
    ∀ (token : Option String) (net : FetchOutcome),
      ((fetchDevices token net).1 = Except.error FetchError.noToken ↔
        (token = none ∨ token = some "")) ∧
      ((token = none ∨ token = some "") → (fetchDevices token net).2 = 0) := by
  intro token net
  cases token with
  | none => exact ⟨by simp [fetchDevices, jsTruthyStr], fun _ => rfl⟩
  | some t =>
    rcases eq_or_ne t "" with ht | ht
    · subst ht
      exact ⟨by simp [fetchDevices, jsTruthyStr], fun _ => rfl⟩
    · have htr : jsTruthyStr (some t) = true := by
        simp [jsTruthyStr, ht]
      have hfd : fetchDevices (some t) net = (fetchDevicesRequest net, 1) := by
        simp [fetchDevices, htr]
      rw [hfd]
      constructor
      · constructor
        · intro hcontra
          exfalso
          cases net with
          | transportFailure msg => simp [fetchDevicesRequest] at hcontra
          | response ok status bodyText parsed =>
            cases ok <;> cases parsed <;> simp [fetchDevicesRequest] at hcontra
        · intro hcontra
          rcases hcontra with h | h
          · exact Option.noConfusion h
          · rw [Option.some_inj] at h
            exact absurd h ht
      · intro hcontra
        rcases hcontra with h | h
        · exact Option.noConfusion h
        · rw [Option.some_inj] at h
          exact absurd h ht

/-- Witness for the amended C8: with a null token and an unreachable
network, the fetch makes zero network calls. -/
theorem fetch_fails_fast_without_token_witness :
    (fetchDevices none (FetchOutcome.transportFailure "connect ECONNREFUSED")).2 = 0 :=
  (fetch_fails_fast_without_token none
    (FetchOutcome.transportFailure "connect ECONNREFUSED")).2 (Or.inl rfl)

/-- C9: at accessory construction, before any refresh result arrives,
the sensor value slot is initialized to 0. -/
theorem constructor_initializes_sensor_to_zero :
    ∀ (entry : DeviceEntry), (constructorState entry).sensorValue = 0 :=
  fun _ => rfl

/-- Witness for C9 on a concrete entry. -/
theorem constructor_initializes_sensor_to_zero_witness :
    (constructorState (mkEntry "d1" "Kitchen" (some 125))).sensorValue = 0 :=
  constructor_initializes_sensor_to_zero (mkEntry "d1" "Kitchen" (some 125))

/-- C10: when the fetched list holds two or more entries with the
tracked identifier (here: a matching entry after any non-matching
prefix, with arbitrary further entries, matching or not), refresh
returns the first match in fetch order. -/
theorem refresh_returns_first_duplicate :
    ∀ (deviceId : String) (l₁ l₂ : List DeviceEntry) (entry : DeviceEntry),
      entry.userDevice.deviceId = deviceId →
      (∀ x ∈ l₁, x.userDevice.deviceId ≠ deviceId) →
      refreshDeviceStatus deviceId (Except.ok (l₁ ++ entry :: l₂)) = some entry := by
  intro d l₁ l₂ entry he h₁
  simp only [refreshDeviceStatus]
  apply find?_first_match
  · simpa using he
  · intro x hx
    simpa using h₁ x hx

/-- Witness for C10: two entries with identifier d1; the first is
returned. -/
theorem refresh_returns_first_duplicate_witness :
    refreshDeviceStatus "d1"
      (Except.ok [mkEntry "d1" "A" (some 60), mkEntry "d1" "B" (some 120)]) =
      some (mkEntry "d1" "A" (some 60)) :=
  refresh_returns_first_duplicate "d1" [] [mkEntry "d1" "B" (some 120)]
    (mkEntry "d1" "A" (some 60)) rfl (by simp)

end Lomi
